import Mathlib

/-!
Verification development for az-acme-tool.

The definitions below are shallow embeddings of the Python modules
`az_acme_tool/acme_client.py`, `az_acme_tool/issue_command.py`,
`az_acme_tool/renew_command.py`, `az_acme_tool/status_command.py` and
`az_acme_tool/cert_converter.py`.  Pure control flow is translated
directly; interactions with the ACME CA, the Azure control plane and the
filesystem are modelled as explicit inputs (per-attempt outcome
functions, file-state records), and calls to `time.sleep` are recorded
as an explicit trace of delays.
-/

set_option maxRecDepth 8192

deriving instance DecidableEq for Except

namespace AzAcme

/-! ### Retry helper (`acme_client._with_retry`) -/

/-- Module constant `_MAX_RETRIES = 3` from acme_client.py. -/
def _MAX_RETRIES : Nat := 3

/-- Module constant `_RETRY_BASE_DELAY_S = 10` from acme_client.py. -/
def _RETRY_BASE_DELAY_S : Nat := 10

/-- Outcome of one invocation of the wrapped callable: either a success
value or an ACME-library error (`acme.errors.Error`) with its message. -/
inductive CallResult (α : Type) where
  | ok (v : α)
  | acmeError (msg : String)
deriving Repr, DecidableEq

/-- Message of the terminal `AcmeError` raised by `_with_retry` once all
attempts are exhausted: it names the attempt count and the last cause. -/
def retryFailureMsg (lastExc : String) : String :=
  "ACME operation failed after " ++ toString _MAX_RETRIES ++ " attempts: " ++ lastExc

/-- Body of the `for attempt in range(1, _MAX_RETRIES + 1)` loop of
`_with_retry`, started at a given attempt number.  The callable is
modelled as a function from the (1-based) attempt number to that
attempt's outcome.  Returns the overall result together with the list of
`time.sleep` delays performed, in order. -/
def withRetryFrom {α : Type} (fn : Nat → CallResult α) (attempt : Nat) :
    Except String α × List Nat :=
  match fn attempt with
  | CallResult.ok v => (Except.ok v, [])
  | CallResult.acmeError msg =>
    if h : attempt < _MAX_RETRIES then
      let delay := _RETRY_BASE_DELAY_S * 2 ^ (attempt - 1)
      let rest := withRetryFrom fn (attempt + 1)
      (rest.1, delay :: rest.2)
    else
      (Except.error (retryFailureMsg msg), [])
termination_by _MAX_RETRIES - attempt
decreasing_by omega

/-- The retry helper `_with_retry` itself: run the loop from attempt 1. -/
def _with_retry {α : Type} (fn : Nat → CallResult α) : Except String α × List Nat :=
  withRetryFrom fn 1

/-! ### Status classification (`status_command._classify_status`) -/

/-- Status label constant `_STATUS_VALID`. -/
def _STATUS_VALID : String := "valid"

/-- Status label constant `_STATUS_EXPIRING`. -/
def _STATUS_EXPIRING : String := "expiring_soon"

/-- Status label constant `_STATUS_EXPIRED`. -/
def _STATUS_EXPIRED : String := "expired"

/-- Module constant `_EXPIRY_THRESHOLD_DAYS = 30`. -/
def _EXPIRY_THRESHOLD_DAYS : Int := 30

/-- Embedding of `status_command._classify_status`: classify a
days-remaining value (`none` = unknown expiry) into a status label. -/
def _classify_status (days_remaining : Option Int) : String :=
  match days_remaining with
  | none => _STATUS_VALID
  | some d =>
    if d > _EXPIRY_THRESHOLD_DAYS then _STATUS_VALID
    else if d > 0 then _STATUS_EXPIRING
    else _STATUS_EXPIRED

/-! ### Account key file and registration (`acme_client.register_account`) -/

/-- State of the account key file on disk: whether it is present, its
permission mode bits, and its modification time. -/
structure FileState where
  present : Bool
  mode : Option Nat
  mtime : Nat
deriving Repr, DecidableEq

/-- Embedding of `_load_or_generate_account_key`: if the key file is
present it is loaded and the file is left untouched; otherwise a fresh
RSA key is written at time `now` and the file is chmod-ed to `0o600`. -/
def _load_or_generate_account_key (fs : FileState) (now : Nat) : FileState :=
  if fs.present then fs
  else { present := true, mode := some 0o600, mtime := now }

/-- Outcome of the single `new_account` call the CA answers during
registration: success (with the optional registration URI), a 409
conflict carrying the existing account location, or any other
`acme.errors.Error`. -/
inductive NewAccountResult where
  | ok (uri : Option String)
  | conflict (location : String)
  | err (msg : String)
deriving Repr, DecidableEq

/-- Trace of one `register_account` call: its result, the resulting key
file state, how many times `new_account` was invoked on the CA, and the
`time.sleep` delays performed. -/
structure RegisterTrace where
  result : Except String String
  fs : FileState
  newAccountCalls : Nat
  sleeps : List Nat
deriving Repr, DecidableEq

/-- Embedding of `AcmeClient.register_account`: load or generate the
account key, then call `new_account` directly (exactly once, outside
`_with_retry`).  A conflict returns the existing account location as
success; any other error is wrapped into a terminal `AcmeError`
immediately; on success the registration URI (or `""`) is returned. -/
def register_account (fs : FileState) (now : Nat) (ca : NewAccountResult) : RegisterTrace :=
  let fs1 := _load_or_generate_account_key fs now
  match ca with
  | NewAccountResult.ok uri => ⟨Except.ok (uri.getD ""), fs1, 1, []⟩
  | NewAccountResult.conflict location => ⟨Except.ok location, fs1, 1, []⟩
  | NewAccountResult.err msg =>
    ⟨Except.error ("Failed to register ACME account: " ++ msg), fs1, 1, []⟩

/-! ### AcmeClient initialisation guards (`_get_client`, `_get_account_key`) -/

/-- The two fields of `AcmeClient` that are `None` until
`register_account` is called. -/
structure AcmeClientState where
  accountKeySet : Bool
  acmeClientSet : Bool
deriving Repr, DecidableEq

/-- State of a freshly constructed `AcmeClient` (its `__init__` sets
both `_account_key` and `_acme_client` to `None`). -/
def AcmeClient.init : AcmeClientState := ⟨false, false⟩

/-- Error message of `_get_client` on an uninitialised client. -/
def notInitialisedMsg : String :=
  "AcmeClient is not initialised — call register_account() first"

/-- Error message of `_get_account_key` on an uninitialised client. -/
def noAccountKeyMsg : String :=
  "AcmeClient has no account key — call register_account() first"

/-- Embedding of `AcmeClient._get_client`. -/
def _get_client (st : AcmeClientState) : Except String Unit :=
  if st.acmeClientSet then Except.ok () else Except.error notInitialisedMsg

/-- Embedding of `AcmeClient._get_account_key`. -/
def _get_account_key (st : AcmeClientState) : Except String Unit :=
  if st.accountKeySet then Except.ok () else Except.error noAccountKeyMsg

/-- Result of one public `AcmeClient` operation: its outcome and the
number of CA interactions it performed. -/
structure OpCall where
  result : Except String Unit
  caCalls : Nat
deriving Repr, DecidableEq

/-- Embedding of the prefix of `AcmeClient.new_order`: `_get_client` is
consulted before anything touches the CA; past the guard the behaviour
is abstracted as `proceed`. -/
def new_order (st : AcmeClientState) (proceed : OpCall) : OpCall :=
  match _get_client st with
  | Except.error m => ⟨Except.error m, 0⟩
  | Except.ok _ => proceed

/-- Embedding of the prefix of `AcmeClient.get_http01_challenge`:
`_get_account_key` is consulted before the order is scanned. -/
def get_http01_challenge (st : AcmeClientState) (proceed : OpCall) : OpCall :=
  match _get_account_key st with
  | Except.error m => ⟨Except.error m, 0⟩
  | Except.ok _ => proceed

/-- Embedding of the prefix of `AcmeClient.answer_challenge`:
`_get_client` then `_get_account_key` are consulted before the challenge
is answered. -/
def answer_challenge (st : AcmeClientState) (proceed : OpCall) : OpCall :=
  match _get_client st with
  | Except.error m => ⟨Except.error m, 0⟩
  | Except.ok _ =>
    match _get_account_key st with
    | Except.error m => ⟨Except.error m, 0⟩
    | Except.ok _ => proceed

/-- Embedding of the prefix of `AcmeClient.finalize_order`:
`_get_client` is consulted before the CSR is submitted. -/
def finalize_order (st : AcmeClientState) (proceed : OpCall) : OpCall :=
  match _get_client st with
  | Except.error m => ⟨Except.error m, 0⟩
  | Except.ok _ => proceed

/-! ### Polling (`AcmeClient.poll_until_valid`) -/

/-- Outcome of one `poll_authorizations` pass against the CA: all
authorizations valid, not yet valid (the library's `TimeoutError` on the
short per-attempt deadline), a permanent `ValidationError`, or any other
`acme.errors.Error`. -/
inductive PollOutcome where
  | valid
  | notYet
  | validationFailed (msg : String)
  | pollError (msg : String)
deriving Repr, DecidableEq

/-- Trace of a `poll_until_valid` call: result, `time.sleep` delays in
order, and the number of poll passes made against the CA. -/
structure PollTrace where
  result : Except String Unit
  sleeps : List Nat
  polls : Nat
deriving Repr, DecidableEq

/-- Message of the terminal timeout error raised when the wall-clock
deadline of `poll_until_valid` is exceeded. -/
def pollTimeoutMsg (timeoutSeconds : Nat) : String :=
  "ACME order did not reach \x27valid\x27 status within " ++ toString timeoutSeconds ++ "s"

/-- Body of the `while datetime.now() < deadline` loop of
`poll_until_valid`.  Wall-clock time is modelled as the seconds elapsed
through sleeping (`elapsed`); the CA is a function from the poll index
to that pass's outcome.  `fuel` bounds the recursion; `none` means the
fuel ran out (which cannot happen for a positive interval, as the
theorems show). -/
def pollLoop (ca : Nat → PollOutcome) (timeoutS intervalS : Nat) :
    Nat → Nat → Nat → Option PollTrace
  | 0, _, _ => none
  | fuel + 1, elapsed, idx =>
    if elapsed < timeoutS then
      match ca idx with
      | PollOutcome.valid => some ⟨Except.ok (), [], 1⟩
      | PollOutcome.notYet =>
        match pollLoop ca timeoutS intervalS fuel (elapsed + intervalS) (idx + 1) with
        | none => none
        | some t => some ⟨t.result, intervalS :: t.sleeps, t.polls + 1⟩
      | PollOutcome.validationFailed m =>
        some ⟨Except.error ("ACME validation failed: " ++ m), [], 1⟩
      | PollOutcome.pollError m =>
        some ⟨Except.error ("ACME polling error: " ++ m), [], 1⟩
    else
      some ⟨Except.error (pollTimeoutMsg timeoutS), [], 0⟩

/-- Embedding of `AcmeClient.poll_until_valid`: consult `_get_client`,
then run the polling loop from elapsed time 0. -/
def poll_until_valid (st : AcmeClientState) (ca : Nat → PollOutcome)
    (timeoutS intervalS : Nat) : Option PollTrace :=
  match _get_client st with
  | Except.error m => some ⟨Except.error m, [], 0⟩
  | Except.ok _ => pollLoop ca timeoutS intervalS (timeoutS + 1) 0 0

/-! ### Issue command loop (`issue_command.run_issue`) -/

/-- A `DomainTarget` as in issue_command.py: one domain on one gateway. -/
structure DomainTarget where
  gateway_name : String
  domain : String
deriving Repr, DecidableEq

/-- Result of one `run_issue` invocation: the `click.echo` lines in
order, the success/failure counters, and whether an `IssueError` was
raised at the end. -/
structure IssueRun where
  echoes : List String
  succeeded : Nat
  failed : Nat
  result : Except String Unit
deriving Repr, DecidableEq

/-- The per-target echo line of the `run_issue` loop (non-dry-run). -/
def issueLine (tgt : DomainTarget) (oc : Except String Unit) : String :=
  match oc with
  | Except.ok _ => "[OK] " ++ tgt.domain ++ " on " ++ tgt.gateway_name
  | Except.error e => "[FAILED] " ++ tgt.domain ++ " on " ++ tgt.gateway_name ++ ": " ++ e

/-- The summary line echoed by `run_issue` after the loop. -/
def issueSummaryLine (succeeded failed : Nat) : String :=
  "\nSummary: " ++ toString (succeeded + failed) ++ " domain(s) — " ++
    toString succeeded ++ " succeeded, " ++ toString failed ++ " failed."

/-- The `for target in targets` loop of `run_issue`.  Each target is
paired with the outcome of `_issue_single_domain` for it; in dry-run
mode the issuance is not attempted and the target counts as succeeded.
Returns the echo lines in order and the succeeded/failed counters. -/
def issueLoop (dryRun : Bool) :
    List (DomainTarget × Except String Unit) → List String × Nat × Nat
  | [] => ([], 0, 0)
  | (tgt, oc) :: rest =>
    let tail := issueLoop dryRun rest
    if dryRun then
      (("[DRY-RUN] Would issue certificate for " ++ tgt.domain ++ " on " ++
        tgt.gateway_name) :: tail.1, tail.2.1 + 1, tail.2.2)
    else
      match oc with
      | Except.ok _ => (issueLine tgt oc :: tail.1, tail.2.1 + 1, tail.2.2)
      | Except.error _ => (issueLine tgt oc :: tail.1, tail.2.1, tail.2.2 + 1)

/-- Embedding of `run_issue` after target resolution: run the loop over
the resolved targets, echo the summary, and raise `IssueError` when any
domain failed. -/
def run_issue (dryRun : Bool) (jobs : List (DomainTarget × Except String Unit)) : IssueRun :=
  if jobs.isEmpty then
    ⟨["No domains matched the specified filters. Nothing to do."], 0, 0, Except.ok ()⟩
  else
    let out := issueLoop dryRun jobs
    ⟨out.1 ++ [issueSummaryLine out.2.1 out.2.2], out.2.1, out.2.2,
      if out.2.2 > 0 then
        Except.error (toString out.2.2 ++ " domain(s) failed to issue certificates.")
      else Except.ok ()⟩

/-! ### Renew command classification (`renew_command.run_renew`) -/

/-- Embedding of `renew_command._domain_to_cert_name`: dots become
hyphens (Python `domain.replace(".", "-")`, a per-character substitution
for a one-character pattern) and the suffix "-cert" is appended. -/
def _domain_to_cert_name (domain : String) : String :=
  String.mk (domain.data.map fun c => if c = '.' then '-' else c) ++ "-cert"

/-- One certificate entry as returned by `list_certificates`: its name
and its days remaining until expiry (`none` when the expiry is unknown,
e.g. a Key Vault reference). -/
structure CertEntry where
  name : String
  expiry : Option Int
deriving Repr, DecidableEq

/-- Per-domain decision taken by the `run_renew` loop once the gateway's
certificate list is available. -/
inductive RenewDecision where
  | skipAbsent
  | skipUnknownExpiry
  | skipThreshold (remaining : Int)
  | renew (remaining : Int)
deriving Repr, DecidableEq

/-- Warning line echoed by `run_renew` when the expected certificate is
absent from the gateway. -/
def renewAbsentWarning (certName gatewayName domain : String) : String :=
  "[WARN] Certificate \x27" ++ certName ++ "\x27 not found on gateway \x27" ++
    gatewayName ++ "\x27 — skipping " ++ domain

/-- Embedding of the per-target body of the `run_renew` loop, from the
certificate-name derivation to the renew-or-skip decision: look up the
entry named `_domain_to_cert_name domain`; if absent, skip (with a
warning); if its expiry is unknown, skip; if the remaining days exceed
the threshold and force is unset, skip; otherwise delegate renewal to
`_issue_single_domain`. -/
def renewTargetDecision (certs : List CertEntry) (domain : String)
    (days : Int) (force : Bool) : RenewDecision :=
  let certName := _domain_to_cert_name domain
  match certs.find? (fun c => c.name == certName) with
  | none => RenewDecision.skipAbsent
  | some entry =>
    match entry.expiry with
    | none => RenewDecision.skipUnknownExpiry
    | some remaining =>
      if !force && remaining > days then RenewDecision.skipThreshold remaining
      else RenewDecision.renew remaining

/-! ### CSR generation (`cert_converter.generate_csr`) -/

/-- The fields of a generated CSR that the specification talks about:
the subject common name and the DNS subject-alternative-name list. -/
structure CSR where
  commonName : String
  sanDNS : List String
deriving Repr, DecidableEq

/-- Wrapper applied by the `except` clause of `generate_csr`: every
failure is surfaced as a `CertConverterError` with this message. -/
def csrError (e : String) : String := "Failed to generate CSR: " ++ e

/-- Embedding of `cert_converter.generate_csr`: the private key is
deserialised first (modelled by the flag `keyOk`); then the subject
common name is `domains[0]` — which, for an empty list, raises the
IndexError "list index out of range", caught and wrapped by the same
`except` clause — and the SAN list is exactly `domains`. -/
def generate_csr (domains : List String) (keyOk : Bool) : Except String CSR :=
  if keyOk = false then Except.error (csrError "Could not deserialize key data.")
  else
    match domains.head? with
    | none => Except.error (csrError "list index out of range")
    | some cn => Except.ok ⟨cn, domains⟩

end AzAcme

namespace AzAcme

/-- C1: the retry helper makes at most 3 total attempts; a callable that
fails on the first k-1 attempts and succeeds on attempt k (k ≤ 3)
returns the success value after exactly k-1 sleeps with delays
`baseDelay * 2^(n-1)` for retry n; a callable failing on all 3 attempts
yields a terminal error whose message names the attempt count and the
last underlying cause. -/
theorem with_retry_spec :
    (∀ (α : Type) (fn : Nat → CallResult α) (k : Nat) (v : α),
        1 ≤ k → k ≤ 3 →
        (∀ n, 1 ≤ n → n < k → ∃ m, fn n = CallResult.acmeError m) →
        fn k = CallResult.ok v →
        _with_retry fn =
          (Except.ok v, (List.range (k - 1)).map fun i => _RETRY_BASE_DELAY_S * 2 ^ i)) ∧
    (∀ (α : Type) (fn : Nat → CallResult α) (m : Nat → String),
        (∀ n, 1 ≤ n → n ≤ 3 → fn n = CallResult.acmeError (m n)) →
        _with_retry fn =
          (Except.error ("ACME operation failed after 3 attempts: " ++ m 3),
            [_RETRY_BASE_DELAY_S, 2 * _RETRY_BASE_DELAY_S])) := by
  constructor
  · intro α fn k v hk1 hk3 hfail hsucc
    interval_cases k
    · simp [_with_retry, withRetryFrom, hsucc]
    · obtain ⟨m1, hm1⟩ := hfail 1 (by omega) (by omega)
      simp [_with_retry, withRetryFrom, hm1, hsucc, _MAX_RETRIES, _RETRY_BASE_DELAY_S]
      decide
    · obtain ⟨m1, hm1⟩ := hfail 1 (by omega) (by omega)
      obtain ⟨m2, hm2⟩ := hfail 2 (by omega) (by omega)
      simp [_with_retry, withRetryFrom, hm1, hm2, hsucc, _MAX_RETRIES, _RETRY_BASE_DELAY_S]
      decide
  · intro α fn m hfail
    have h1 := hfail 1 (by omega) (by omega)
    have h2 := hfail 2 (by omega) (by omega)
    have h3 := hfail 3 (by omega) (by omega)
    simp [_with_retry, withRetryFrom, h1, h2, h3, _MAX_RETRIES,
      retryFailureMsg, _RETRY_BASE_DELAY_S]
    congr 1

/-- Witness for C1: a callable failing twice then succeeding on attempt 3
returns the value after sleeps of 10 and 20 seconds; a callable that
always fails yields the terminal message naming 3 attempts and the last
cause, after the same two sleeps. -/
theorem with_retry_spec_witness :
    _with_retry (fun n => if n < 3 then CallResult.acmeError "boom" else CallResult.ok 42) =
      (Except.ok 42, (List.range 2).map fun i => _RETRY_BASE_DELAY_S * 2 ^ i) ∧
    _with_retry (fun _ => CallResult.acmeError "down" : Nat → CallResult Nat) =
      (Except.error ("ACME operation failed after 3 attempts: " ++ "down"),
        [_RETRY_BASE_DELAY_S, 2 * _RETRY_BASE_DELAY_S]) := by
  constructor
  · exact with_retry_spec.1 Nat _ 3 42 (by decide) (by decide)
      (fun n h1 h2 => ⟨"boom", by interval_cases n <;> decide⟩) (by decide)
  · exact with_retry_spec.2 Nat _ (fun _ => "down") (fun n _ _ => rfl)

/-- C7: the status classification returns "valid" above the fixed 30-day
threshold, "expiring_soon" on (0, 30], "expired" at 0 or below, and
"valid" when the expiry is unknown. -/
theorem classify_status_spec :
    (∀ d : Int, d > 30 → _classify_status (some d) = "valid") ∧
    (∀ d : Int, 0 < d → d ≤ 30 → _classify_status (some d) = "expiring_soon") ∧
    (∀ d : Int, d ≤ 0 → _classify_status (some d) = "expired") ∧
    _classify_status none = "valid" := by
  refine ⟨?_, ?_, ?_, rfl⟩
  · intro d hd
    simp [_classify_status, _EXPIRY_THRESHOLD_DAYS, _STATUS_VALID, hd]
  · intro d hd0 hd30
    simp only [_classify_status, _EXPIRY_THRESHOLD_DAYS]
    rw [if_neg (by omega), if_pos hd0]
    rfl
  · intro d hd
    simp only [_classify_status, _EXPIRY_THRESHOLD_DAYS]
    rw [if_neg (by omega), if_neg (by omega)]
    rfl

/-- C4: registerAccount with no existing key file writes a fresh key
with owner-only (0o600) permissions and returns the CA account URL;
with an existing key file the file is left untouched; and a CA conflict
response yields the existing account URL as success. -/
theorem register_account_lifecycle :
    (∀ (t0 now : Nat) (uri : String),
        (register_account ⟨false, none, t0⟩ now (NewAccountResult.ok (some uri))).fs =
          ⟨true, some 0o600, now⟩ ∧
        (register_account ⟨false, none, t0⟩ now (NewAccountResult.ok (some uri))).result =
          Except.ok uri) ∧
    (∀ (fs : FileState) (now : Nat) (ca : NewAccountResult),
        fs.present = true → (register_account fs now ca).fs = fs) ∧
    (∀ (fs : FileState) (now : Nat) (location : String),
        (register_account fs now (NewAccountResult.conflict location)).result =
          Except.ok location) := by
  refine ⟨?_, ?_, ?_⟩
  · intro t0 now uri
    constructor
    · cases ca : NewAccountResult.ok (some uri) <;>
        simp [register_account, _load_or_generate_account_key]
    · simp [register_account, _load_or_generate_account_key]
  · intro fs now ca hpresent
    cases ca <;> simp [register_account, _load_or_generate_account_key, hpresent]
  · intro fs now location
    simp [register_account]

/-- Witness for C4: registration with an absent key file at time 7
creates the 0o600 file and returns the URL; registration over an
existing file leaves it unchanged; a conflict returns its location. -/
theorem register_account_lifecycle_witness :
    ((register_account ⟨false, none, 0⟩ 7 (NewAccountResult.ok (some "https://ca/acct/1"))).fs =
        ⟨true, some 0o600, 7⟩ ∧
      (register_account ⟨false, none, 0⟩ 7 (NewAccountResult.ok (some "https://ca/acct/1"))).result =
        Except.ok "https://ca/acct/1") ∧
    (FileState.present ⟨true, some 0o600, 3⟩ = true ∧
      (register_account ⟨true, some 0o600, 3⟩ 9 (NewAccountResult.ok (some "u"))).fs =
        ⟨true, some 0o600, 3⟩) ∧
    (register_account ⟨true, some 0o600, 3⟩ 9 (NewAccountResult.conflict "https://ca/acct/old")).result =
      Except.ok "https://ca/acct/old" :=
  ⟨register_account_lifecycle.1 0 7 "https://ca/acct/1",
   ⟨rfl, register_account_lifecycle.2.1 ⟨true, some 0o600, 3⟩ 9
      (NewAccountResult.ok (some "u")) rfl⟩,
   register_account_lifecycle.2.2 ⟨true, some 0o600, 3⟩ 9 "https://ca/acct/old"⟩

/-- C2 counterexample: a register_account call whose CA account-creation
request persistently fails with a non-conflict error makes exactly one
new_account attempt and performs no backoff sleeps — not the claimed up
to 3 attempts with exponential delays — before the terminal error. -/
theorem register_retry_counterexample :
    (register_account ⟨true, some 0o600, 0⟩ 0
        (NewAccountResult.err "connection reset")).newAccountCalls = 1 ∧
    (register_account ⟨true, some 0o600, 0⟩ 0
        (NewAccountResult.err "connection reset")).sleeps = [] ∧
    (register_account ⟨true, some 0o600, 0⟩ 0
        (NewAccountResult.err "connection reset")).result =
      Except.error "Failed to register ACME account: connection reset" ∧
    ¬ ((register_account ⟨true, some 0o600, 0⟩ 0
        (NewAccountResult.err "connection reset")).newAccountCalls = _MAX_RETRIES ∧
      (register_account ⟨true, some 0o600, 0⟩ 0
        (NewAccountResult.err "connection reset")).sleeps =
          [_RETRY_BASE_DELAY_S, 2 * _RETRY_BASE_DELAY_S]) := by
  decide

/-- C2 as amended: every register_account call whose CA account-creation
request fails with a protocol- or transport-level error other than a
conflict is surfaced immediately as a terminal CA error, after a single
new_account attempt and with no retry sleeps. -/
theorem register_error_no_retry :
    ∀ (fs : FileState) (now : Nat) (m : String),
      (register_account fs now (NewAccountResult.err m)).result =
        Except.error ("Failed to register ACME account: " ++ m) ∧
      (register_account fs now (NewAccountResult.err m)).newAccountCalls = 1 ∧
      (register_account fs now (NewAccountResult.err m)).sleeps = [] := by
  intro fs now m
  exact ⟨rfl, rfl, rfl⟩

/-- C10: each CA-facing AcmeClient operation — new_order,
get_http01_challenge, answer_challenge, poll_until_valid,
finalize_order — fails on a freshly constructed client with an AcmeError
telling the caller to call register_account() first, and performs no CA
interaction. -/
theorem ops_require_registration :
    ∀ (proceed : OpCall) (ca : Nat → PollOutcome) (timeoutS intervalS : Nat),
      new_order AcmeClient.init proceed = ⟨Except.error notInitialisedMsg, 0⟩ ∧
      get_http01_challenge AcmeClient.init proceed = ⟨Except.error noAccountKeyMsg, 0⟩ ∧
      answer_challenge AcmeClient.init proceed = ⟨Except.error notInitialisedMsg, 0⟩ ∧
      poll_until_valid AcmeClient.init ca timeoutS intervalS =
        some ⟨Except.error notInitialisedMsg, [], 0⟩ ∧
      finalize_order AcmeClient.init proceed = ⟨Except.error notInitialisedMsg, 0⟩ ∧
      List.IsSuffix "call register_account() first".data notInitialisedMsg.data ∧
      List.IsSuffix "call register_account() first".data noAccountKeyMsg.data := by
  intro proceed ca timeoutS intervalS
  refine ⟨rfl, rfl, rfl, rfl, rfl, by decide, by decide⟩

/-- Witness for C7: classification evaluated at 31, 30, 1, 0 and -5 days
remaining, and at an unknown expiry. -/
theorem classify_status_spec_witness :
    _classify_status (some 31) = "valid" ∧
    _classify_status (some 30) = "expiring_soon" ∧
    _classify_status (some 1) = "expiring_soon" ∧
    _classify_status (some 0) = "expired" ∧
    _classify_status (some (-5)) = "expired" ∧
    _classify_status none = "valid" :=
  ⟨classify_status_spec.1 31 (by decide),
   classify_status_spec.2.1 30 (by decide) (by decide),
   classify_status_spec.2.1 1 (by decide) (by decide),
   classify_status_spec.2.2.1 0 (by decide),
   classify_status_spec.2.2.1 (-5) (by decide),
   classify_status_spec.2.2.2⟩

/-- Helper: against a CA that always answers not-yet-valid, the polling
loop sleeps the interval once per pass and eventually trips its
wall-clock deadline, provided the fuel covers the time budget. -/
theorem pollLoop_allNotYet (t i : Nat) :
    ∀ (fuel e idx : Nat), t ≤ e + fuel * i →
      ∃ n, pollLoop (fun _ => PollOutcome.notYet) t i (fuel + 1) e idx =
          some ⟨Except.error (pollTimeoutMsg t), List.replicate n i, n⟩ ∧
        (e < t → 1 ≤ n) := by
  intro fuel
  induction fuel with
  | zero =>
    intro e idx h
    have he : ¬ e < t := by omega
    exact ⟨0, by simp [pollLoop, he], fun hlt => absurd hlt he⟩
  | succ f ih =>
    intro e idx h
    by_cases he : e < t
    · have hmul : (f + 1) * i = f * i + i := Nat.succ_mul f i
      obtain ⟨n, hn, _⟩ := ih (e + i) (idx + 1) (by omega)
      refine ⟨n + 1, ?_, fun _ => by omega⟩
      rw [pollLoop, if_pos he, hn]
      simp [List.replicate_succ]
    · exact ⟨0, by simp [pollLoop, he], fun hlt => absurd hlt he⟩

/-- Helper: if the CA answers not-yet-valid for the first k poll passes
and reports a permanent validation failure on pass k+1, the polling loop
raises the validation error right there: k sleeps, k+1 polls. -/
theorem pollLoop_validationFailed (t i : Nat) (m : String) (ca : Nat → PollOutcome) :
    ∀ (k fuel e idx : Nat),
      (∀ j, j < k → ca (idx + j) = PollOutcome.notYet) →
      ca (idx + k) = PollOutcome.validationFailed m →
      e + k * i < t → k ≤ fuel →
      pollLoop ca t i (fuel + 1) e idx =
        some ⟨Except.error ("ACME validation failed: " ++ m), List.replicate k i, k + 1⟩ := by
  intro k
  induction k with
  | zero =>
    intro fuel e idx hnot hfail hlt hfuel
    have he : e < t := by omega
    have hca : ca idx = PollOutcome.validationFailed m := by simpa using hfail
    simp [pollLoop, he, hca]
  | succ k ih =>
    intro fuel e idx hnot hfail hlt hfuel
    have hmul : (k + 1) * i = k * i + i := Nat.succ_mul k i
    have he : e < t := by omega
    obtain ⟨f, rfl⟩ : ∃ f, fuel = f + 1 := ⟨fuel - 1, by omega⟩
    have h0 : ca idx = PollOutcome.notYet := by simpa using hnot 0 (by omega)
    have hrec := ih f (e + i) (idx + 1)
      (fun j hj => by
        have harith : idx + 1 + j = idx + (j + 1) := by omega
        rw [harith]
        exact hnot (j + 1) (by omega))
      (by
        have harith : idx + 1 + k = idx + (k + 1) := by omega
        rw [harith]
        exact hfail)
      (by omega) (by omega)
    rw [pollLoop, if_pos he, h0, hrec]
    simp [List.replicate_succ]

/-- C3: poll_until_valid distinguishes not-yet-valid from
permanently-failed.  (1) Against a CA that always answers not-yet-valid
it sleeps the poll interval after every pass and, once the wall-clock
deadline is exceeded, raises the terminal timeout error, with at least
one sleep recorded.  (2) A permanent validation failure after k
not-yet-valid passes raises immediately on pass k+1, with no further
polling.  (3) The timeout error names the duration budget. -/
theorem poll_until_valid_spec :
    (∀ (t i : Nat), 1 ≤ i → 1 ≤ t →
      ∃ n, 1 ≤ n ∧
        poll_until_valid ⟨true, true⟩ (fun _ => PollOutcome.notYet) t i =
          some ⟨Except.error (pollTimeoutMsg t), List.replicate n i, n⟩) ∧
    (∀ (t i k : Nat) (m : String) (ca : Nat → PollOutcome), 1 ≤ i →
      (∀ j, j < k → ca j = PollOutcome.notYet) →
      ca k = PollOutcome.validationFailed m →
      k * i < t →
      poll_until_valid ⟨true, true⟩ ca t i =
        some ⟨Except.error ("ACME validation failed: " ++ m), List.replicate k i, k + 1⟩) ∧
    (∀ t : Nat, pollTimeoutMsg t =
      "ACME order did not reach \x27valid\x27 status within " ++ toString t ++ "s") := by
  refine ⟨?_, ?_, fun t => rfl⟩
  · intro t i hi ht
    have hbudget : t ≤ 0 + t * i := by nlinarith
    obtain ⟨n, hn, hpos⟩ := pollLoop_allNotYet t i t 0 0 hbudget
    exact ⟨n, hpos (by omega), by simpa [poll_until_valid, _get_client] using hn⟩
  · intro t i k m ca hi hnot hfail hlt
    have hk : k ≤ t := by nlinarith
    have h := pollLoop_validationFailed t i m ca k t 0 0
      (fun j hj => by simpa using hnot j hj) (by simpa using hfail) (by omega) hk
    simpa [poll_until_valid, _get_client] using h

/-- Witness for C3: with a poll interval of 7s and an overall timeout of
1s against a CA that always answers not-yet-valid, the call raises the
timeout error naming 1s after at least one sleep of 7s; and a CA that
answers not-yet-valid twice then permanently fails makes the call raise
the validation error on the third pass with exactly two sleeps. -/
theorem poll_until_valid_spec_witness :
    (∃ n, 1 ≤ n ∧
      poll_until_valid ⟨true, true⟩ (fun _ => PollOutcome.notYet) 1 7 =
        some ⟨Except.error (pollTimeoutMsg 1), List.replicate n 7, n⟩) ∧
    poll_until_valid ⟨true, true⟩
        (fun j => if j < 2 then PollOutcome.notYet else PollOutcome.validationFailed "dns")
        60 5 =
      some ⟨Except.error ("ACME validation failed: " ++ "dns"), List.replicate 2 5, 2 + 1⟩ := by
  constructor
  · exact poll_until_valid_spec.1 1 7 (by decide) (by decide)
  · exact poll_until_valid_spec.2.1 60 5 2 "dns" _ (by decide)
      (fun j hj => by interval_cases j <;> rfl) (by rfl) (by decide)

/-- Helper: a list's elements counted by a predicate and by its negation
together account for the whole list. -/
theorem countP_split {α : Type} (p : α → Bool) (l : List α) :
    l.countP p + l.countP (fun a => !p a) = l.length := by
  induction l with
  | nil => simp
  | cons a l ih =>
    cases h : p a <;> simp [List.countP_cons, h] <;> omega

/-- Helper: the `run_issue` loop visits every target, echoes one line
per target, and counts successes and failures over the whole list. -/
theorem issueLoop_run (jobs : List (DomainTarget × Except String Unit)) :
    (issueLoop false jobs).1 = jobs.map (fun j => issueLine j.1 j.2) ∧
    (issueLoop false jobs).2.1 = jobs.countP (fun j => j.2.isOk) ∧
    (issueLoop false jobs).2.2 = jobs.countP (fun j => !j.2.isOk) := by
  induction jobs with
  | nil => simp [issueLoop]
  | cons j rest ih =>
    obtain ⟨tgt, oc⟩ := j
    obtain ⟨h1, h2, h3⟩ := ih
    cases oc with
    | ok v =>
      simp [issueLoop, h1, h2, h3, List.countP_cons, Except.isOk, Except.toBool]
    | error e =>
      simp [issueLoop, h1, h2, h3, List.countP_cons, Except.isOk, Except.toBool]

/-- C5: for every list of resolved domain targets, run_issue processes
each target (one echo line per target, in order), counts every failure
without aborting the remaining targets, prints the summary of the form
"total domain(s) — succeeded succeeded, failed failed", and raises a
fatal IssueError if and only if the failed count is positive. -/
theorem run_issue_spec :
    ∀ (jobs : List (DomainTarget × Except String Unit)), jobs ≠ [] →
      (run_issue false jobs).succeeded = jobs.countP (fun j => j.2.isOk) ∧
      (run_issue false jobs).failed = jobs.countP (fun j => !j.2.isOk) ∧
      (run_issue false jobs).succeeded + (run_issue false jobs).failed = jobs.length ∧
      (run_issue false jobs).echoes =
        (jobs.map fun j => issueLine j.1 j.2) ++
          [issueSummaryLine (run_issue false jobs).succeeded (run_issue false jobs).failed] ∧
      ((∃ e, (run_issue false jobs).result = Except.error e) ↔
        0 < (run_issue false jobs).failed) ∧
      (∀ s f : Nat, issueSummaryLine s f =
        "\nSummary: " ++ toString (s + f) ++ " domain(s) — " ++ toString s ++
          " succeeded, " ++ toString f ++ " failed.") := by
  intro jobs hne
  have hE : jobs.isEmpty = false := by
    cases jobs with
    | nil => exact absurd rfl hne
    | cons a l => rfl
  obtain ⟨h1, h2, h3⟩ := issueLoop_run jobs
  have hs : (run_issue false jobs).succeeded = (issueLoop false jobs).2.1 := by
    simp [run_issue, hE]
  have hf : (run_issue false jobs).failed = (issueLoop false jobs).2.2 := by
    simp [run_issue, hE]
  have hech : (run_issue false jobs).echoes =
      (issueLoop false jobs).1 ++
        [issueSummaryLine (issueLoop false jobs).2.1 (issueLoop false jobs).2.2] := by
    simp [run_issue, hE]
  have hres : (run_issue false jobs).result =
      if (issueLoop false jobs).2.2 > 0 then
        Except.error (toString (issueLoop false jobs).2.2 ++
          " domain(s) failed to issue certificates.")
      else Except.ok () := by
    simp [run_issue, hE]
  refine ⟨hs.trans h2, hf.trans h3, ?_, ?_, ?_, fun s f => rfl⟩
  · rw [hs, hf, h2, h3]
    exact countP_split _ jobs
  · rw [hech, hs, hf, h1]
  · rw [hres, hf]
    by_cases hpos : 0 < (issueLoop false jobs).2.2
    · rw [if_pos hpos]
      exact iff_of_true ⟨_, rfl⟩ hpos
    · rw [if_neg hpos]
      refine iff_of_false ?_ hpos
      rintro ⟨e, he⟩
      exact Except.noConfusion he

/-- Witness for C5: a batch of two targets in which the first succeeds
and the second fails yields one success, one failure, a summary naming
both counts, and a raised IssueError. -/
theorem run_issue_spec_witness :
    ([(⟨"agw-alpha", "www.alpha.com"⟩, Except.ok ()),
      (⟨"agw-alpha", "api.alpha.com"⟩, Except.error "boom")] :
        List (DomainTarget × Except String Unit)) ≠ [] ∧
    (run_issue false [(⟨"agw-alpha", "www.alpha.com"⟩, Except.ok ()),
      (⟨"agw-alpha", "api.alpha.com"⟩, Except.error "boom")]).succeeded = 1 ∧
    (run_issue false [(⟨"agw-alpha", "www.alpha.com"⟩, Except.ok ()),
      (⟨"agw-alpha", "api.alpha.com"⟩, Except.error "boom")]).failed = 1 ∧
    (∃ e, (run_issue false [(⟨"agw-alpha", "www.alpha.com"⟩, Except.ok ()),
      (⟨"agw-alpha", "api.alpha.com"⟩, Except.error "boom")]).result = Except.error e) := by
  have h := run_issue_spec
    [(⟨"agw-alpha", "www.alpha.com"⟩, Except.ok ()),
     (⟨"agw-alpha", "api.alpha.com"⟩, Except.error "boom")]
    (List.cons_ne_nil _ _)
  refine ⟨List.cons_ne_nil _ _, h.1.trans (by decide), h.2.1.trans (by decide), ?_⟩
  refine h.2.2.2.2.1.mpr ?_
  rw [h.2.1]
  decide

/-- C6: for every domain target, the renew command looks up the
certificate named by the fixed naming convention and classifies it:
absent on the gateway means skip (with a warning), unknown expiry means
skip, more days remaining than the threshold without the force flag
means skip, and otherwise renewal is delegated to the issuance routine. -/
theorem renew_classification_spec :
    (_domain_to_cert_name "www.example.com" = "www-example-com-cert") ∧
    (∀ (certs : List CertEntry) (domain : String) (days : Int) (force : Bool),
        certs.find? (fun c => c.name == _domain_to_cert_name domain) = none →
        renewTargetDecision certs domain days force = RenewDecision.skipAbsent) ∧
    (∀ (certs : List CertEntry) (domain : String) (days : Int) (force : Bool)
        (entry : CertEntry),
        certs.find? (fun c => c.name == _domain_to_cert_name domain) = some entry →
        entry.expiry = none →
        renewTargetDecision certs domain days force = RenewDecision.skipUnknownExpiry) ∧
    (∀ (certs : List CertEntry) (domain : String) (days : Int) (entry : CertEntry)
        (remaining : Int),
        certs.find? (fun c => c.name == _domain_to_cert_name domain) = some entry →
        entry.expiry = some remaining → remaining > days →
        renewTargetDecision certs domain days false = RenewDecision.skipThreshold remaining) ∧
    (∀ (certs : List CertEntry) (domain : String) (days : Int) (force : Bool)
        (entry : CertEntry) (remaining : Int),
        certs.find? (fun c => c.name == _domain_to_cert_name domain) = some entry →
        entry.expiry = some remaining → (force = true ∨ remaining ≤ days) →
        renewTargetDecision certs domain days force = RenewDecision.renew remaining) := by
  refine ⟨by decide, ?_, ?_, ?_, ?_⟩
  · intro certs domain days force hfind
    simp [renewTargetDecision, hfind]
  · intro certs domain days force entry hfind hexp
    simp [renewTargetDecision, hfind, hexp]
  · intro certs domain days entry remaining hfind hexp hgt
    simp [renewTargetDecision, hfind, hexp, hgt]
  · intro certs domain days force entry remaining hfind hexp hor
    rcases hor with hforce | hle
    · simp [renewTargetDecision, hfind, hexp, hforce]
    · have hnot : ¬ (remaining > days) := not_lt.mpr hle
      simp [renewTargetDecision, hfind, hexp, hnot]

/-- Witness for C6: with the certificate for www.example.com present at
35 days remaining, a 30-day threshold without force skips it; at 25 days
remaining it is renewed; an empty gateway list skips with the absent
branch; and an entry with unknown expiry skips. -/
theorem renew_classification_spec_witness :
    (List.find? (fun c : CertEntry => c.name == _domain_to_cert_name "www.example.com")
        [CertEntry.mk (_domain_to_cert_name "www.example.com") (some 35)] =
        some (CertEntry.mk (_domain_to_cert_name "www.example.com") (some 35)) ∧
      renewTargetDecision [CertEntry.mk (_domain_to_cert_name "www.example.com") (some 35)]
        "www.example.com" 30 false = RenewDecision.skipThreshold 35) ∧
    (renewTargetDecision [CertEntry.mk (_domain_to_cert_name "www.example.com") (some 25)]
        "www.example.com" 30 false = RenewDecision.renew 25) ∧
    (renewTargetDecision [] "www.example.com" 30 false = RenewDecision.skipAbsent) ∧
    (renewTargetDecision [CertEntry.mk (_domain_to_cert_name "www.example.com") none]
        "www.example.com" 30 false = RenewDecision.skipUnknownExpiry) := by
  have hfind35 : List.find? (fun c : CertEntry => c.name == _domain_to_cert_name "www.example.com")
      [CertEntry.mk (_domain_to_cert_name "www.example.com") (some 35)] =
      some (CertEntry.mk (_domain_to_cert_name "www.example.com") (some 35)) := by
    simp [List.find?]
  have hfind25 : List.find? (fun c : CertEntry => c.name == _domain_to_cert_name "www.example.com")
      [CertEntry.mk (_domain_to_cert_name "www.example.com") (some 25)] =
      some (CertEntry.mk (_domain_to_cert_name "www.example.com") (some 25)) := by
    simp [List.find?]
  have hfindN : List.find? (fun c : CertEntry => c.name == _domain_to_cert_name "www.example.com")
      [CertEntry.mk (_domain_to_cert_name "www.example.com") none] =
      some (CertEntry.mk (_domain_to_cert_name "www.example.com") none) := by
    simp [List.find?]
  refine ⟨⟨hfind35, ?_⟩, ?_, ?_, ?_⟩
  · exact renew_classification_spec.2.2.2.1 _ _ 30
      (CertEntry.mk (_domain_to_cert_name "www.example.com") (some 35)) 35 hfind35 rfl (by decide)
  · exact renew_classification_spec.2.2.2.2 _ _ 30 false
      (CertEntry.mk (_domain_to_cert_name "www.example.com") (some 25)) 25 hfind25 rfl
      (Or.inr (by decide))
  · exact renew_classification_spec.2.1 [] "www.example.com" 30 false rfl
  · exact renew_classification_spec.2.2.1 _ _ 30 false
      (CertEntry.mk (_domain_to_cert_name "www.example.com") none) hfindN rfl

/-- C9: the force flag bypasses only the days-remaining threshold: an
absent certificate or an unknown expiry is still skipped when force is
set, while any present certificate with a known expiry is renewed. -/
theorem renew_force_bypasses_only_threshold :
    (∀ (certs : List CertEntry) (domain : String) (days : Int),
        certs.find? (fun c => c.name == _domain_to_cert_name domain) = none →
        renewTargetDecision certs domain days true = RenewDecision.skipAbsent) ∧
    (∀ (certs : List CertEntry) (domain : String) (days : Int) (entry : CertEntry),
        certs.find? (fun c => c.name == _domain_to_cert_name domain) = some entry →
        entry.expiry = none →
        renewTargetDecision certs domain days true = RenewDecision.skipUnknownExpiry) ∧
    (∀ (certs : List CertEntry) (domain : String) (days : Int) (entry : CertEntry)
        (remaining : Int),
        certs.find? (fun c => c.name == _domain_to_cert_name domain) = some entry →
        entry.expiry = some remaining →
        renewTargetDecision certs domain days true = RenewDecision.renew remaining) := by
  refine ⟨?_, ?_, ?_⟩
  · intro certs domain days hfind
    simp [renewTargetDecision, hfind]
  · intro certs domain days entry hfind hexp
    simp [renewTargetDecision, hfind, hexp]
  · intro certs domain days entry remaining hfind hexp
    simp [renewTargetDecision, hfind, hexp]

/-- Witness for C9: with force set, an empty certificate list still
skips, an unknown expiry still skips, and a certificate with 300 days
remaining (far above a 30-day threshold) is renewed. -/
theorem renew_force_bypasses_only_threshold_witness :
    (renewTargetDecision [] "www.example.com" 30 true = RenewDecision.skipAbsent) ∧
    (renewTargetDecision [CertEntry.mk (_domain_to_cert_name "www.example.com") none]
        "www.example.com" 30 true = RenewDecision.skipUnknownExpiry) ∧
    (renewTargetDecision [CertEntry.mk (_domain_to_cert_name "www.example.com") (some 300)]
        "www.example.com" 30 true = RenewDecision.renew 300) := by
  refine ⟨?_, ?_, ?_⟩
  · exact renew_force_bypasses_only_threshold.1 [] "www.example.com" 30 rfl
  · exact renew_force_bypasses_only_threshold.2.1 _ _ 30
      (CertEntry.mk (_domain_to_cert_name "www.example.com") none) (by simp [List.find?]) rfl
  · exact renew_force_bypasses_only_threshold.2.2 _ _ 30
      (CertEntry.mk (_domain_to_cert_name "www.example.com") (some 300)) 300
      (by simp [List.find?]) rfl

/-- C8: the CSR builder, given a non-empty domain list and a key that
parses, produces a CSR whose subject common name is the first domain and
whose DNS SAN list is exactly the given domain list; given an empty
domain list it fails with a CertConverterError and produces no output. -/
theorem generate_csr_spec :
    (∀ (domains : List String) (cn : String) (rest : List String),
        domains = cn :: rest →
        generate_csr domains true = Except.ok ⟨cn, domains⟩) ∧
    generate_csr [] true = Except.error (csrError "list index out of range") := by
  constructor
  · intro domains cn rest h
    subst h
    rfl
  · rfl

/-- Witness for C8: buildCSR(["a.com","b.com"], key) has common name
"a.com" and SAN list exactly ["a.com","b.com"]; with zero domains it
fails with the wrapped IndexError. -/
theorem generate_csr_spec_witness :
    (["a.com", "b.com"] = "a.com" :: ["b.com"] ∧
      generate_csr ["a.com", "b.com"] true =
        Except.ok ⟨"a.com", ["a.com", "b.com"]⟩) ∧
    generate_csr [] true = Except.error (csrError "list index out of range") :=
  ⟨⟨rfl, generate_csr_spec.1 ["a.com", "b.com"] "a.com" ["b.com"] rfl⟩,
    generate_csr_spec.2⟩

end AzAcme
